import Mathlib

/-!
Verification of the `rollup_cost_profiler` tool (src/app.py).

The program is a pure cost calculator: a `RollupProfile` record, a registry of
three named profiles, a `compute_cost` function producing a summary record, and
CLI glue around them.  We embed the relevant parts shallowly:

* Python `int` becomes `Int` (arbitrary precision in Python, so no modular
  wrap-around is modelled).
* Python `float` inputs (`gas_price_gwei`) and float-valued results are
  modelled as exact rationals `ℚ`: `math.ceil(t / b)` is the rational ceiling,
  `int(x)` is truncation toward zero, `x / y` is exact division.  (IEEE-754
  rounding of intermediate quotients and products is idealised away; for the
  integer quantities the program computes this agrees with CPython on all
  inputs whose quotients are exactly representable.)
* `raise ValueError` becomes `Except.error`; the CLI glue of `main` -
  catching the error and calling `sys.exit(1)`, or `sys.exit(1)` inside
  `build_custom_profile` - is modelled by the `MainOutcome` type together
  with `exit_code`.
-/

/-- Embeds the `RollupProfile` dataclass of src/app.py (lines 9-16).
The gas fields are Python `int`s, hence `Int`. -/
structure RollupProfile where
  key : String
  name : String
  description : String
  proof_gas : Int
  calldata_gas_per_tx : Int
  overhead_gas_per_batch : Int
deriving DecidableEq

/-- The `"aztec"` entry of the `PROFILES` dict (src/app.py lines 20-30). -/
def aztec : RollupProfile :=
  ⟨"aztec", "Aztec-style zk rollup",
    "Privacy-preserving zk rollup with relatively expensive proofs but efficient calldata packing.",
    900000, 320, 60000⟩

/-- The `"zama"` entry of the `PROFILES` dict (src/app.py lines 31-42). -/
def zama : RollupProfile :=
  ⟨"zama", "Zama-style FHE + rollup hybrid",
    "Conceptual profile for a system combining fully homomorphic encryption with rollup-style batching. Proofs are cheaper but ciphertexts are larger.",
    500000, 700, 70000⟩

/-- The `"soundness"` entry of the `PROFILES` dict (src/app.py lines 43-53). -/
def soundness : RollupProfile :=
  ⟨"soundness", "Soundness-first research rollup",
    "Profile that prioritizes simple, auditable circuits and extra safety margins over raw gas efficiency.",
    650000, 420, 90000⟩

/-- The `PROFILES` registry (src/app.py lines 19-54), as a lookup by key. -/
def PROFILES : String → Option RollupProfile
  | "aztec" => some aztec
  | "zama" => some zama
  | "soundness" => some soundness
  | _ => none

/-- Truncation of a rational toward zero: the semantics of Python `int(x)`
applied to a real value (round toward zero). -/
def rat_trunc (q : ℚ) : Int :=
  if 0 ≤ q then ⌊q⌋ else ⌈q⌉

/-- Embeds `wei_from_gwei` (src/app.py lines 57-58): `int(x * 1_000_000_000)`.
The float argument is modelled as an exact rational. -/
def wei_from_gwei (x : ℚ) : Int :=
  rat_trunc (x * 1000000000)

/-- Embeds `eth_from_wei` (src/app.py lines 61-62): float division by 1e18,
modelled exactly. -/
def eth_from_wei (x : Int) : ℚ :=
  (x : ℚ) / 1000000000000000000

/-- Embeds the dict returned by `compute_cost` (src/app.py lines 98-116),
field for field in the source order. -/
structure CostSummary where
  profile : String
  profileName : String
  description : String
  txCount : Int
  batchSize : Int
  batches : Int
  gasPriceGwei : ℚ
  proofGasPerBatch : Int
  calldataGasPerTx : Int
  overheadGasPerBatch : Int
  totalProofGas : Int
  totalOverheadGas : Int
  totalCalldataGas : Int
  totalGas : Int
  perTxGas : ℚ
  totalFeeEth : ℚ
  perTxFeeEth : ℚ
deriving DecidableEq

/-- Embeds `compute_cost` (src/app.py lines 73-116).  The two `raise
ValueError` guards become `Except.error`; `math.ceil(tx_count / batch_size)`
is the exact rational ceiling; the remaining lines are transcribed in order.
The function is pure: it reads its arguments and builds a fresh summary,
mutating nothing. -/
def compute_cost (profile : RollupProfile) (tx_count batch_size : Int)
    (gas_price_gwei : ℚ) : Except String CostSummary :=
  if tx_count ≤ 0 then Except.error "tx_count must be positive."
  else if batch_size ≤ 0 then Except.error "batch_size must be positive."
  else
    let batches : Int := ⌈(tx_count : ℚ) / (batch_size : ℚ)⌉
    let total_proof_gas := batches * profile.proof_gas
    let total_overhead_gas := batches * profile.overhead_gas_per_batch
    let total_calldata_gas := tx_count * profile.calldata_gas_per_tx
    let total_gas := total_proof_gas + total_overhead_gas + total_calldata_gas
    let gas_price_wei := wei_from_gwei gas_price_gwei
    let total_fee_wei := total_gas * gas_price_wei
    let total_fee_eth := eth_from_wei total_fee_wei
    let per_tx_gas : ℚ := (total_gas : ℚ) / (tx_count : ℚ)
    let per_tx_fee_eth := total_fee_eth / (tx_count : ℚ)
    Except.ok
      ⟨profile.key, profile.name, profile.description, tx_count, batch_size,
        batches, gas_price_gwei, profile.proof_gas, profile.calldata_gas_per_tx,
        profile.overhead_gas_per_batch, total_proof_gas, total_overhead_gas,
        total_calldata_gas, total_gas, per_tx_gas, total_fee_eth, per_tx_fee_eth⟩

/-- Embeds the fields of the `argparse.Namespace` built in `parse_args`
(src/app.py lines 119-175).  The three custom-profile options default to
`None`, hence `Option Int`. -/
structure Args where
  tx_count : Int
  profile : String
  batch_size : Int
  gas_price_gwei : ℚ
  proof_gas : Option Int
  calldata_gas_per_tx : Option Int
  overhead_gas_per_batch : Option Int
  json : Bool
  list_profiles : Bool

/-- Embeds `build_custom_profile` (src/app.py lines 178-197).  The
`sys.exit(1)` on missing options becomes `Except.error missing`; otherwise
the custom profile carries exactly the three supplied values (`getD 0` is
only reached when the corresponding option is present). -/
def build_custom_profile (a : Args) : Except (List String) RollupProfile :=
  let missing :=
    (if a.proof_gas.isNone then ["--proof-gas"] else []) ++
    (if a.calldata_gas_per_tx.isNone then ["--calldata-gas-per-tx"] else []) ++
    (if a.overhead_gas_per_batch.isNone then ["--overhead-gas-per-batch"] else [])
  if missing.isEmpty then
    Except.ok
      ⟨"custom", "Custom rollup profile",
        "User-defined gas parameters for a hypothetical rollup.",
        a.proof_gas.getD 0, a.calldata_gas_per_tx.getD 0,
        a.overhead_gas_per_batch.getD 0⟩
  else Except.error missing

/-- Outcome of one run of `main` (src/app.py lines 226-254), abstracting the
printing: which path was taken and what value it carried. `usage_error` is the
`argparse` rejection of an unknown `--profile` choice (exit code 2), which in
the real program happens before `main`'s dispatch. -/
inductive MainOutcome where
  | listed
  | usage_error
  | missing_fields (m : List String)
  | invalid_input (e : String)
  | success (s : CostSummary)
deriving DecidableEq

/-- The process exit status each `MainOutcome` produces: `sys.exit(1)` for
both error kinds, 2 for an `argparse` usage error, 0 otherwise. -/
def exit_code : MainOutcome → Nat
  | MainOutcome.listed => 0
  | MainOutcome.usage_error => 2
  | MainOutcome.missing_fields _ => 1
  | MainOutcome.invalid_input _ => 1
  | MainOutcome.success _ => 0

/-- The `compute_cost` call and surrounding `try/except` of `main`
(src/app.py lines 238-247). -/
def run_compute (p : RollupProfile) (a : Args) : MainOutcome :=
  match compute_cost p a.tx_count a.batch_size a.gas_price_gwei with
  | Except.error e => MainOutcome.invalid_input e
  | Except.ok s => MainOutcome.success s

/-- Embeds `main` (src/app.py lines 226-254): list-profiles short circuit,
profile resolution (custom via `build_custom_profile`, otherwise registry
lookup), then the guarded `compute_cost` call. -/
def run_main (a : Args) : MainOutcome :=
  if a.list_profiles then MainOutcome.listed
  else if a.profile = "custom" then
    match build_custom_profile a with
    | Except.error m => MainOutcome.missing_fields m
    | Except.ok p => run_compute p a
  else
    match PROFILES a.profile with
    | none => MainOutcome.usage_error
    | some p => run_compute p a

/-- Discriminator: did an `Except` computation fail? -/
def is_err {ε α : Type} : Except ε α → Bool
  | Except.error _ => true
  | Except.ok _ => false

/-- Discriminator: did `main` reach a successful cost summary? -/
def is_success : MainOutcome → Bool
  | MainOutcome.success _ => true
  | _ => false

/-- The summary `compute_cost` produces for the aztec profile at
`tx_count = 1000`, `batch_size = 256`, `gas_price_gwei = 20`. -/
def s_aztec_1000 : CostSummary :=
  ⟨"aztec", "Aztec-style zk rollup",
    "Privacy-preserving zk rollup with relatively expensive proofs but efficient calldata packing.",
    1000, 256, 4, 20, 900000, 320, 60000,
    3600000, 240000, 320000, 4160000, 4160, 52/625, 52/625000⟩

/-- The summary `compute_cost` produces for the aztec profile at
`tx_count = 256`, `batch_size = 256`, `gas_price_gwei = 20`. -/
def s_aztec_256 : CostSummary :=
  ⟨"aztec", "Aztec-style zk rollup",
    "Privacy-preserving zk rollup with relatively expensive proofs but efficient calldata packing.",
    256, 256, 1, 20, 900000, 320, 60000,
    900000, 60000, 81920, 1041920, 4070, 1628/78125, 407/5000000⟩

/-- Command line with `--profile custom` and a negative `--proof-gas`,
which argparse accepts (`type=int` puts no sign restriction). -/
def args_neg : Args :=
  ⟨1, "custom", 256, 20, some (-1), some 0, some 0, false, false⟩

/-- Command line selecting `--profile custom` without any of the three
required numeric options. -/
def args_missing : Args :=
  ⟨10, "custom", 256, 20, none, none, none, false, false⟩

/-- Command line with `tx_count = 0` on the default aztec profile. -/
def args_zero_tx : Args :=
  ⟨0, "aztec", 256, 20, none, none, none, false, false⟩

/-! ### Helper lemmas -/

/-- Inversion: a successful `compute_cost` call forces positive inputs and
determines every field of the summary, line for line as in the source. -/
theorem compute_cost_fields (p : RollupProfile) (t b : Int) (g : ℚ)
    (s : CostSummary) (h : compute_cost p t b g = Except.ok s) :
    0 < t ∧ 0 < b ∧
    s.profile = p.key ∧ s.profileName = p.name ∧ s.description = p.description ∧
    s.txCount = t ∧ s.batchSize = b ∧
    s.batches = ⌈(t : ℚ) / (b : ℚ)⌉ ∧ s.gasPriceGwei = g ∧
    s.proofGasPerBatch = p.proof_gas ∧
    s.calldataGasPerTx = p.calldata_gas_per_tx ∧
    s.overheadGasPerBatch = p.overhead_gas_per_batch ∧
    s.totalProofGas = s.batches * p.proof_gas ∧
    s.totalOverheadGas = s.batches * p.overhead_gas_per_batch ∧
    s.totalCalldataGas = t * p.calldata_gas_per_tx ∧
    s.totalGas = s.totalProofGas + s.totalOverheadGas + s.totalCalldataGas ∧
    s.perTxGas = (s.totalGas : ℚ) / (t : ℚ) ∧
    s.totalFeeEth = eth_from_wei (s.totalGas * wei_from_gwei g) ∧
    s.perTxFeeEth = s.totalFeeEth / (t : ℚ) := by
  unfold compute_cost at h
  by_cases h1 : t ≤ 0
  · rw [if_pos h1] at h
    exact Except.noConfusion h
  · rw [if_neg h1] at h
    by_cases h2 : b ≤ 0
    · rw [if_pos h2] at h
      exact Except.noConfusion h
    · rw [if_neg h2] at h
      simp only [Except.ok.injEq] at h
      subst h
      refine ⟨by omega, by omega, rfl, rfl, rfl, rfl, rfl, rfl, rfl, rfl, rfl,
        rfl, rfl, rfl, rfl, rfl, rfl, rfl, rfl⟩

/-- A `compute_cost` call on positive inputs succeeds (the two guards are
passed and an `Except.ok` is built). -/
theorem compute_cost_pos_ok (p : RollupProfile) (t b : Int) (g : ℚ)
    (ht : 0 < t) (hb : 0 < b) :
    is_err (compute_cost p t b g) = false := by
  unfold compute_cost
  rw [if_neg (by omega), if_neg (by omega)]
  rfl

/-- Evaluation of the ceiling for the (1000, 256) example. -/
theorem ceil_1000_256 : (⌈((1000 : Int) : ℚ) / ((256 : Int) : ℚ)⌉ : Int) = 4 := by
  rw [Int.ceil_eq_iff]
  push_cast
  norm_num

/-- Evaluation of the ceiling for the (256, 256) example. -/
theorem ceil_256_256 : (⌈((256 : Int) : ℚ) / ((256 : Int) : ℚ)⌉ : Int) = 1 := by
  rw [Int.ceil_eq_iff]
  push_cast
  norm_num

/-- Concrete run: the aztec profile at `tx_count = 1000`, `batch_size = 256`,
`gas_price_gwei = 20`. -/
theorem compute_cost_aztec_1000 :
    compute_cost aztec 1000 256 20 = Except.ok s_aztec_1000 := by
  unfold compute_cost
  rw [if_neg (by norm_num), if_neg (by norm_num)]
  simp only [aztec, s_aztec_1000, Except.ok.injEq, CostSummary.mk.injEq, ceil_1000_256,
    wei_from_gwei, rat_trunc, eth_from_wei]
  norm_num

/-- Concrete run: the aztec profile at `tx_count = 256`, `batch_size = 256`,
`gas_price_gwei = 20`. -/
theorem compute_cost_aztec_256 :
    compute_cost aztec 256 256 20 = Except.ok s_aztec_256 := by
  unfold compute_cost
  rw [if_neg (by norm_num), if_neg (by norm_num)]
  simp only [aztec, s_aztec_256, Except.ok.injEq, CostSummary.mk.injEq, ceil_256_256,
    wei_from_gwei, rat_trunc, eth_from_wei]
  norm_num

/-- A non-positive transaction count or batch size sends `run_compute` to the
`invalid_input` branch of `main`'s try/except. -/
theorem run_compute_invalid (p : RollupProfile) (a : Args)
    (hd : a.tx_count ≤ 0 ∨ a.batch_size ≤ 0) :
    is_success (run_compute p a) = false ∧ exit_code (run_compute p a) = 1 := by
  unfold run_compute compute_cost
  rcases hd with hd | hd
  · rw [if_pos hd]
    exact ⟨rfl, rfl⟩
  · by_cases h1 : a.tx_count ≤ 0
    · rw [if_pos h1]
      exact ⟨rfl, rfl⟩
    · rw [if_neg h1, if_pos hd]
      exact ⟨rfl, rfl⟩

/-- On a registry profile (not `custom`, not listing), `main` runs the
computation on the looked-up profile. -/
theorem run_main_registry (a : Args) (p : RollupProfile)
    (hlist : a.list_profiles = false) (hcustom : a.profile ≠ "custom")
    (hprof : PROFILES a.profile = some p) :
    run_main a = run_compute p a := by
  unfold run_main
  rw [if_neg (by simp [hlist]), if_neg hcustom, hprof]

/-- The registry has no `"custom"` key: the custom profile only ever comes
from `build_custom_profile`. -/
theorem PROFILES_custom_none : PROFILES "custom" = none := rfl

/-! ### Claims -/

/-- C1: whenever `compute_cost` succeeds, the `batches` field is the exact
mathematical ceiling of `tx_count / batch_size`: it is the unique integer `z`
with `b * (z - 1) < t ≤ b * z`.  The (t = 1000, b = 256) instance is checked
in the witness. -/
theorem C1_batches_exact_ceiling (p : RollupProfile) (t b : Int) (g : ℚ)
    (s : CostSummary) (h : compute_cost p t b g = Except.ok s) :
    b * (s.batches - 1) < t ∧ t ≤ b * s.batches ∧
    ∀ z : Int, b * (z - 1) < t → t ≤ b * z → z = s.batches := by
  obtain ⟨ht, hb, -, -, -, -, -, hbatch, -, -, -, -, -, -, -, -, -, -, -⟩ :=
    compute_cost_fields p t b g s h
  have hqb : (0 : ℚ) < (b : ℚ) := by exact_mod_cast hb
  have hle : (t : ℚ) / (b : ℚ) ≤ (s.batches : ℚ) := by
    rw [hbatch]
    exact Int.le_ceil _
  have hlt : (s.batches : ℚ) < (t : ℚ) / (b : ℚ) + 1 := by
    rw [hbatch]
    exact Int.ceil_lt_add_one _
  have h1 : b * (s.batches - 1) < t := by
    rw [← @Int.cast_lt ℚ]
    push_cast
    have h0 : (s.batches : ℚ) - 1 < (t : ℚ) / (b : ℚ) := by linarith
    have h0' := (lt_div_iff₀ hqb).mp h0
    nlinarith [h0']
  have h2 : t ≤ b * s.batches := by
    rw [← @Int.cast_le ℚ]
    push_cast
    have h0 := (div_le_iff₀ hqb).mp hle
    nlinarith [h0]
  refine ⟨h1, h2, ?_⟩
  intro z hz1 hz2
  have l1 : z - 1 < s.batches :=
    lt_of_mul_lt_mul_left (lt_of_lt_of_le hz1 h2) (by omega)
  have l2 : s.batches - 1 < z :=
    lt_of_mul_lt_mul_left (lt_of_lt_of_le h1 hz2) (by omega)
  omega

/-- Witness for C1: the run (aztec, t = 1000, b = 256, g = 20) succeeds,
returns 4 batches, and 4 satisfies the ceiling characterisation. -/
theorem C1_witness :
    s_aztec_1000.batches = 4 ∧
    256 * (s_aztec_1000.batches - 1) < 1000 ∧
    (1000 : Int) ≤ 256 * s_aztec_1000.batches := by
  have h := C1_batches_exact_ceiling aztec 1000 256 20 s_aztec_1000 compute_cost_aztec_1000
  exact ⟨rfl, h.1, h.2.1⟩

/-- C2: whenever `compute_cost` succeeds, the returned `totalGas` equals
`batches * proof_gas + batches * overhead_gas_per_batch + tx_count *
calldata_gas_per_tx`, where `batches` is the returned field. -/
theorem C2_total_gas_formula (p : RollupProfile) (t b : Int) (g : ℚ)
    (s : CostSummary) (h : compute_cost p t b g = Except.ok s) :
    s.totalGas = s.batches * p.proof_gas + s.batches * p.overhead_gas_per_batch
      + t * p.calldata_gas_per_tx := by
  obtain ⟨-, -, -, -, -, -, -, -, -, -, -, -, htp, hto, htc, htg, -, -, -⟩ :=
    compute_cost_fields p t b g s h
  rw [htg, htp, hto, htc]

/-- Witness for C2 at (aztec, t = 1000, b = 256, g = 20). -/
theorem C2_witness :
    s_aztec_1000.totalGas =
      s_aztec_1000.batches * aztec.proof_gas
        + s_aztec_1000.batches * aztec.overhead_gas_per_batch
        + 1000 * aztec.calldata_gas_per_tx :=
  C2_total_gas_formula aztec 1000 256 20 s_aztec_1000 compute_cost_aztec_1000

/-- C3: the spec's worked example: aztec profile, tx_count = 256,
batch_size = 256, gas_price_gwei = 20 gives batches = 1, total proof gas
900000, total overhead gas 60000, total calldata gas 81920, total gas
1041920. -/
theorem C3_aztec_example :
    (compute_cost aztec 256 256 20).map CostSummary.batches = Except.ok 1 ∧
    (compute_cost aztec 256 256 20).map CostSummary.totalProofGas = Except.ok 900000 ∧
    (compute_cost aztec 256 256 20).map CostSummary.totalOverheadGas = Except.ok 60000 ∧
    (compute_cost aztec 256 256 20).map CostSummary.totalCalldataGas = Except.ok 81920 ∧
    (compute_cost aztec 256 256 20).map CostSummary.totalGas = Except.ok 1041920 := by
  rw [compute_cost_aztec_256]
  exact ⟨rfl, rfl, rfl, rfl, rfl⟩

/-- C4: `compute_cost` fails iff `tx_count ≤ 0` or `batch_size ≤ 0`; on
positive inputs it never raises; and when it fails, `main` produces no
summary and exits with status 1. -/
theorem C4_validation_iff (p : RollupProfile) (t b : Int) (g : ℚ) :
    (is_err (compute_cost p t b g) = true ↔ (t ≤ 0 ∨ b ≤ 0))
    ∧ (0 < t → 0 < b → is_err (compute_cost p t b g) = false)
    ∧ (∀ a : Args, a.list_profiles = false → PROFILES a.profile = some p →
        a.tx_count = t → a.batch_size = b →
        (t ≤ 0 ∨ b ≤ 0) →
        is_success (run_main a) = false ∧ exit_code (run_main a) = 1) := by
  have herr : (t ≤ 0 ∨ b ≤ 0) → is_err (compute_cost p t b g) = true := by
    intro hd
    unfold compute_cost
    rcases hd with hd | hd
    · rw [if_pos hd]
      rfl
    · by_cases h1 : t ≤ 0
      · rw [if_pos h1]
        rfl
      · rw [if_neg h1, if_pos hd]
        rfl
  refine ⟨⟨?_, herr⟩, fun ht hb => compute_cost_pos_ok p t b g ht hb, ?_⟩
  · intro he
    by_contra hc
    push_neg at hc
    rw [compute_cost_pos_ok p t b g hc.1 hc.2] at he
    exact Bool.noConfusion he
  · intro a hlist hprof htx hbs hd
    have hcustom : a.profile ≠ "custom" := by
      intro hcu
      rw [hcu, PROFILES_custom_none] at hprof
      exact Option.noConfusion hprof
    rw [run_main_registry a p hlist hcustom hprof]
    exact run_compute_invalid p a (by omega)

/-- Witness for C4: tx_count = 0 on the aztec profile is rejected, and the
corresponding command line exits with status 1 and no summary. -/
theorem C4_witness :
    is_err (compute_cost aztec 0 256 20) = true ∧
    is_success (run_main args_zero_tx) = false ∧
    exit_code (run_main args_zero_tx) = 1 := by
  obtain ⟨hiff, -, hmain⟩ := C4_validation_iff aztec 0 256 20
  obtain ⟨h1, h2⟩ := hmain args_zero_tx rfl rfl rfl rfl (Or.inl (by norm_num))
  exact ⟨hiff.mpr (Or.inl (by norm_num)), h1, h2⟩

/-- C5: with profile `custom`, a missing option among --proof-gas,
--calldata-gas-per-tx, --overhead-gas-per-batch makes `build_custom_profile`
fail and `main` exit with status 1; with all three present, the custom
profile carries exactly the supplied values and `main` computes with it. -/
theorem C5_custom_profile (a : Args) :
    ((a.proof_gas = none ∨ a.calldata_gas_per_tx = none ∨
        a.overhead_gas_per_batch = none) →
      is_err (build_custom_profile a) = true ∧
      (a.list_profiles = false → a.profile = "custom" →
        is_success (run_main a) = false ∧ exit_code (run_main a) = 1))
    ∧ (∀ pg cg og : Int, a.proof_gas = some pg →
        a.calldata_gas_per_tx = some cg → a.overhead_gas_per_batch = some og →
        build_custom_profile a = Except.ok
          ⟨"custom", "Custom rollup profile",
            "User-defined gas parameters for a hypothetical rollup.", pg, cg, og⟩ ∧
        (a.list_profiles = false → a.profile = "custom" →
          run_main a = run_compute
            ⟨"custom", "Custom rollup profile",
              "User-defined gas parameters for a hypothetical rollup.", pg, cg, og⟩ a)) := by
  constructor
  · intro hmiss
    have hne : is_err (build_custom_profile a) = true := by
      cases hp : a.proof_gas <;> cases hc : a.calldata_gas_per_tx <;>
        cases ho : a.overhead_gas_per_batch <;>
        simp_all [build_custom_profile, is_err, List.isEmpty]
    refine ⟨hne, fun hlist hcustom => ?_⟩
    obtain ⟨m, hm⟩ : ∃ m, build_custom_profile a = Except.error m := by
      cases hbe : build_custom_profile a with
      | error m => exact ⟨m, rfl⟩
      | ok q =>
        rw [hbe] at hne
        exact Bool.noConfusion hne
    unfold run_main
    rw [if_neg (by simp [hlist]), if_pos hcustom, hm]
    exact ⟨rfl, rfl⟩
  · intro pg cg og hpg hcg hog
    have hb : build_custom_profile a = Except.ok
        ⟨"custom", "Custom rollup profile",
          "User-defined gas parameters for a hypothetical rollup.", pg, cg, og⟩ := by
      simp [build_custom_profile, hpg, hcg, hog]
    refine ⟨hb, fun hlist hcustom => ?_⟩
    unfold run_main
    rw [if_neg (by simp [hlist]), if_pos hcustom, hb]

/-- Witness for C5: a command line missing all three options errors out with
exit status 1, and a fully specified one builds the profile (5, 6, 7). -/
theorem C5_witness :
    is_err (build_custom_profile args_missing) = true ∧
    is_success (run_main args_missing) = false ∧
    exit_code (run_main args_missing) = 1 ∧
    build_custom_profile ⟨10, "custom", 256, 20, some 5, some 6, some 7, false, false⟩ =
      Except.ok ⟨"custom", "Custom rollup profile",
        "User-defined gas parameters for a hypothetical rollup.", 5, 6, 7⟩ := by
  obtain ⟨hmiss, -⟩ := C5_custom_profile args_missing
  obtain ⟨h1, h2⟩ := hmiss (Or.inl rfl)
  obtain ⟨h3, h4⟩ := h2 rfl rfl
  obtain ⟨-, hall⟩ :=
    C5_custom_profile ⟨10, "custom", 256, 20, some 5, some 6, some 7, false, false⟩
  exact ⟨h1, h3, h4, (hall 5 6 7 rfl rfl rfl).1⟩

/-- C6: for non-negative gas_price_gwei the wei conversion is the truncation
toward zero (= floor) of gas_price_gwei * 1e9, and the fee is the exact
integer product total_gas * gas_price_wei: the returned totalFeeEth times
1e18 is exactly that product. -/
theorem C6_fee_conversion (p : RollupProfile) (t b : Int) (g : ℚ)
    (s : CostSummary) (hg : 0 ≤ g) (h : compute_cost p t b g = Except.ok s) :
    wei_from_gwei g = ⌊g * 1000000000⌋ ∧
    s.totalFeeEth * 1000000000000000000 = ((s.totalGas * wei_from_gwei g : Int) : ℚ) := by
  have hw : wei_from_gwei g = ⌊g * 1000000000⌋ := by
    unfold wei_from_gwei rat_trunc
    rw [if_pos (mul_nonneg hg (by norm_num))]
  obtain ⟨-, -, -, -, -, -, -, -, -, -, -, -, -, -, -, -, -, hfee, -⟩ :=
    compute_cost_fields p t b g s h
  refine ⟨hw, ?_⟩
  rw [hfee]
  unfold eth_from_wei
  rw [div_mul_cancel₀ _ (by norm_num)]

/-- Witness for C6 at (aztec, t = 1000, b = 256, g = 20). -/
theorem C6_witness :
    (0 : ℚ) ≤ 20 ∧
    wei_from_gwei 20 = ⌊(20 : ℚ) * 1000000000⌋ ∧
    s_aztec_1000.totalFeeEth * 1000000000000000000 =
      ((s_aztec_1000.totalGas * wei_from_gwei 20 : Int) : ℚ) := by
  have h := C6_fee_conversion aztec 1000 256 20 s_aztec_1000 (by norm_num)
    compute_cost_aztec_1000
  exact ⟨by norm_num, h.1, h.2⟩

/-- C7: the returned per-transaction gas times the transaction count is
exactly the returned total gas, under exact (real) division. -/
theorem C7_per_tx_gas (p : RollupProfile) (t b : Int) (g : ℚ)
    (s : CostSummary) (h : compute_cost p t b g = Except.ok s) :
    s.perTxGas * (t : ℚ) = (s.totalGas : ℚ) := by
  obtain ⟨ht, -, -, -, -, -, -, -, -, -, -, -, -, -, -, -, hptg, -, -⟩ :=
    compute_cost_fields p t b g s h
  rw [hptg]
  exact div_mul_cancel₀ _ (by exact_mod_cast (by omega : t ≠ 0))

/-- Witness for C7 at (aztec, t = 1000, b = 256, g = 20). -/
theorem C7_witness :
    s_aztec_1000.perTxGas * ((1000 : Int) : ℚ) = (s_aztec_1000.totalGas : ℚ) :=
  C7_per_tx_gas aztec 1000 256 20 s_aztec_1000 compute_cost_aztec_1000

/-- C8 counterexample: argparse accepts a negative --proof-gas, and the
program then constructs and successfully computes with a custom profile whose
proof_gas is -1 < 0, refuting "every custom profile the program constructs
has non-negative gas fields". -/
theorem C8_counterexample :
    build_custom_profile args_neg = Except.ok
      ⟨"custom", "Custom rollup profile",
        "User-defined gas parameters for a hypothetical rollup.", -1, 0, 0⟩ ∧
    (-1 : Int) < 0 ∧ is_success (run_main args_neg) = true := by
  exact ⟨rfl, by norm_num, rfl⟩

/-- C8 amended: the three registry profiles have non-negative gas fields, and
a custom profile's fields equal the supplied option values, hence are
non-negative whenever those values are (the program itself never checks
sign). -/
theorem C8_nonneg_amended :
    (∀ k p, PROFILES k = some p →
      0 ≤ p.proof_gas ∧ 0 ≤ p.calldata_gas_per_tx ∧ 0 ≤ p.overhead_gas_per_batch)
    ∧ (∀ (a : Args) (pg cg og : Int), a.proof_gas = some pg →
        a.calldata_gas_per_tx = some cg → a.overhead_gas_per_batch = some og →
        0 ≤ pg → 0 ≤ cg → 0 ≤ og →
        ∀ p, build_custom_profile a = Except.ok p →
          0 ≤ p.proof_gas ∧ 0 ≤ p.calldata_gas_per_tx ∧ 0 ≤ p.overhead_gas_per_batch) := by
  constructor
  · intro k p hk
    unfold PROFILES at hk
    split at hk
    · injection hk with hk
      subst hk
      decide
    · injection hk with hk
      subst hk
      decide
    · injection hk with hk
      subst hk
      decide
    · exact Option.noConfusion hk
  · intro a pg cg og hpg hcg hog h1 h2 h3 p hp
    rw [show build_custom_profile a = Except.ok
        ⟨"custom", "Custom rollup profile",
          "User-defined gas parameters for a hypothetical rollup.", pg, cg, og⟩ from by
      simp [build_custom_profile, hpg, hcg, hog]] at hp
    injection hp with hp
    subst hp
    exact ⟨h1, h2, h3⟩

/-- Witness for the amended C8: the aztec registry entry, and a custom
profile built from the non-negative options (5, 6, 7). -/
theorem C8_amended_witness :
    (0 ≤ aztec.proof_gas ∧ 0 ≤ aztec.calldata_gas_per_tx ∧
      0 ≤ aztec.overhead_gas_per_batch) ∧
    (0 ≤ (⟨"custom", "Custom rollup profile",
        "User-defined gas parameters for a hypothetical rollup.",
        5, 6, 7⟩ : RollupProfile).proof_gas ∧
      0 ≤ (⟨"custom", "Custom rollup profile",
        "User-defined gas parameters for a hypothetical rollup.",
        5, 6, 7⟩ : RollupProfile).calldata_gas_per_tx ∧
      0 ≤ (⟨"custom", "Custom rollup profile",
        "User-defined gas parameters for a hypothetical rollup.",
        5, 6, 7⟩ : RollupProfile).overhead_gas_per_batch) := by
  obtain ⟨hreg, hcust⟩ := C8_nonneg_amended
  refine ⟨hreg "aztec" aztec rfl, ?_⟩
  exact hcust ⟨10, "custom", 256, 20, some 5, some 6, some 7, false, false⟩ 5 6 7
    rfl rfl rfl (by norm_num) (by norm_num) (by norm_num) _ rfl

/-- C9: `compute_cost` is pure (the embedding is a function and the profile
argument is immutable) and echoes its inputs: txCount, batchSize and
gasPriceGwei equal the arguments, and the profile fields are copied
unchanged into the summary. -/
theorem C9_echo (p : RollupProfile) (t b : Int) (g : ℚ)
    (s : CostSummary) (h : compute_cost p t b g = Except.ok s) :
    s.txCount = t ∧ s.batchSize = b ∧ s.gasPriceGwei = g ∧
    s.profile = p.key ∧ s.profileName = p.name ∧ s.description = p.description ∧
    s.proofGasPerBatch = p.proof_gas ∧ s.calldataGasPerTx = p.calldata_gas_per_tx ∧
    s.overheadGasPerBatch = p.overhead_gas_per_batch := by
  obtain ⟨-, -, hprof, hname, hdesc, htx, hbs, -, hgp, hpg, hcg, hog, -, -, -, -, -, -, -⟩ :=
    compute_cost_fields p t b g s h
  exact ⟨htx, hbs, hgp, hprof, hname, hdesc, hpg, hcg, hog⟩

/-- Witness for C9 at (aztec, t = 1000, b = 256, g = 20). -/
theorem C9_witness :
    s_aztec_1000.txCount = 1000 ∧ s_aztec_1000.batchSize = 256 ∧
    s_aztec_1000.gasPriceGwei = 20 ∧
    s_aztec_1000.profile = aztec.key ∧ s_aztec_1000.profileName = aztec.name ∧
    s_aztec_1000.description = aztec.description ∧
    s_aztec_1000.proofGasPerBatch = aztec.proof_gas ∧
    s_aztec_1000.calldataGasPerTx = aztec.calldata_gas_per_tx ∧
    s_aztec_1000.overheadGasPerBatch = aztec.overhead_gas_per_batch :=
  C9_echo aztec 1000 256 20 s_aztec_1000 compute_cost_aztec_1000

/-- C10: for a fixed profile with non-negative gas fields (the data-model
invariant), fixed positive batch size and fixed gas price, totalGas is
monotone non-decreasing in tx_count. -/
theorem C10_total_gas_monotone (p : RollupProfile) (t1 t2 b : Int) (g : ℚ)
    (s1 s2 : CostSummary)
    (hP : 0 ≤ p.proof_gas) (hC : 0 ≤ p.calldata_gas_per_tx)
    (hO : 0 ≤ p.overhead_gas_per_batch) (h12 : t1 ≤ t2)
    (h1 : compute_cost p t1 b g = Except.ok s1)
    (h2 : compute_cost p t2 b g = Except.ok s2) :
    s1.totalGas ≤ s2.totalGas := by
  obtain ⟨ht1, hb, -, -, -, -, -, hbatch1, -, -, -, -, htp1, hto1, htc1, htg1, -, -, -⟩ :=
    compute_cost_fields p t1 b g s1 h1
  obtain ⟨ht2, -, -, -, -, -, -, hbatch2, -, -, -, -, htp2, hto2, htc2, htg2, -, -, -⟩ :=
    compute_cost_fields p t2 b g s2 h2
  have hqb : (0 : ℚ) < (b : ℚ) := by exact_mod_cast hb
  have hmono : s1.batches ≤ s2.batches := by
    rw [hbatch1, hbatch2]
    exact Int.ceil_le_ceil ((div_le_div_iff_of_pos_right hqb).mpr (by exact_mod_cast h12))
  rw [htg1, htg2, htp1, htp2, hto1, hto2, htc1, htc2]
  exact add_le_add
    (add_le_add (mul_le_mul_of_nonneg_right hmono hP)
      (mul_le_mul_of_nonneg_right hmono hO))
    (mul_le_mul_of_nonneg_right h12 hC)

/-- Witness for C10: aztec profile, batch size 256, gas price 20, comparing
tx_count 256 against tx_count 1000. -/
theorem C10_witness : s_aztec_256.totalGas ≤ s_aztec_1000.totalGas :=
  C10_total_gas_monotone aztec 256 1000 256 20 s_aztec_256 s_aztec_1000
    (by norm_num [aztec]) (by norm_num [aztec]) (by norm_num [aztec])
    (by norm_num) compute_cost_aztec_256 compute_cost_aztec_1000
